import Mathlib

/-!
Shallow embedding of the IronTrack data-synchronization layer
(the `DataProvider` context module and the remote-store client wrapper).

Remote calls are modelled by passing each operation the response the remote
store would return (`Except DbError …`); AsyncStorage's `"exercises"` snapshot
is the `cache` field of `DataState`.  JS `try/catch` blocks that swallow the
error and only log it are translated to functions that return a normal result
on every input; blocks that rethrow return `Except.error`.
-/

namespace IronTrack

/-- A store-level error carrying a machine-readable code (`error.code` of a
supabase response).  The sentinel code `"PGRST116"` means "row not found". -/
structure DbError where
  code : String
deriving DecidableEq

/-- Response of a supabase `.single()` query: the row (absent when no row
matched) together with an optional error. -/
structure SbSingleResp (α : Type) where
  data : Option α
  error : Option DbError

/-- A row of the `exercises` table, restricted to the fields the
synchronization layer reads (`id` for removal, `name` for sorting/joins). -/
structure Exercise where
  id : Nat
  name : String
deriving DecidableEq

/-- A row of the `workouts` table. -/
structure Workout where
  id : Nat
  date : String
deriving DecidableEq

/-- A row of the `sets` table.  `reps` and `weight` are the values after the
JS coercions performed in `addSet` (`parseInt` / `parseFloat`-with-truthiness);
`weight` is `none` when the column is SQL `null`. -/
structure SetRow where
  id : Nat
  workout_id : Nat
  exercise_id : Nat
  reps : Int
  weight : Option ℚ
  order_index : Nat
deriving DecidableEq

/-- A set joined with its exercise display name, the shape stored in
`todaySets` (`exercise: { name }` in the JS objects). -/
structure SetWithName where
  row : SetRow
  exerciseName : String
deriving DecidableEq

/-- The in-memory state of the `DataProvider` (its five `useState` cells)
plus the AsyncStorage `"exercises"` snapshot (`cache`). -/
structure DataState where
  exercises : List Exercise
  todayWorkout : Option Workout
  todaySets : List SetWithName
  loading : Bool
  syncing : Bool
  cache : Option (List Exercise)
deriving DecidableEq

/-- `database.getTodaysWorkout`: a `.single()` response whose error code is
`"PGRST116"` (row not found) is not treated as an error; the data (possibly
absent) is returned.  Any other error is thrown (the surrounding `catch`
rethrows). -/
def getTodaysWorkout (resp : SbSingleResp Workout) : Except DbError (Option Workout) :=
  match resp.error with
  | some e => if e.code = "PGRST116" then Except.ok resp.data else Except.error e
  | none => Except.ok resp.data

/-- `loadTodayWorkout`: stores the fetched workout, then its sets; the
`catch` block swallows every error (it only logs) and clears `todaySets`,
so the returned outcome is always `ok`. -/
def loadTodayWorkout (st : DataState)
    (workoutResp : Except DbError (Option Workout))
    (setsResp : Except DbError (List SetWithName)) :
    DataState × Except DbError Unit :=
  match workoutResp with
  | Except.error _ => ({ st with todaySets := [] }, Except.ok ())
  | Except.ok none => ({ st with todayWorkout := none, todaySets := [] }, Except.ok ())
  | Except.ok (some w) =>
    match setsResp with
    | Except.ok sets =>
        ({ st with todayWorkout := some w, todaySets := sets }, Except.ok ())
    | Except.error _ =>
        ({ st with todayWorkout := some w, todaySets := [] }, Except.ok ())

/-- The comparator `(a, b) => a.name.localeCompare(b.name)`, as a relation. -/
def nameLe (a b : Exercise) : Prop := a.name ≤ b.name

instance : DecidableRel nameLe := fun a b => inferInstanceAs (Decidable (a.name ≤ b.name))

instance : IsTotal Exercise nameLe := ⟨fun a b => le_total a.name b.name⟩

instance : IsTrans Exercise nameLe := ⟨fun _ _ _ hab hbc => le_trans hab hbc⟩

/-- JS `Array.prototype.sort` with the name comparator, modelled as a stable
sort by name. -/
def sortByName (l : List Exercise) : List Exercise := List.insertionSort nameLe l

/-- `createExercise`: inserts remotely, then stores the name-sorted extension
of the in-memory list and rewrites the cache snapshot.  On remote failure the
error is rethrown and nothing is written. -/
def createExercise (st : DataState) (resp : Except DbError Exercise) :
    DataState × Except DbError Exercise :=
  match resp with
  | Except.error e => (st, Except.error e)
  | Except.ok newExercise =>
    let updatedExercises := sortByName (st.exercises ++ [newExercise])
    ({ st with exercises := updatedExercises, cache := some updatedExercises },
     Except.ok newExercise)

/-- `deleteExercise`: archives remotely, then filters the id out of the
in-memory list and rewrites the cache.  On remote failure the error is
rethrown and nothing is written. -/
def deleteExercise (st : DataState) (exerciseId : Nat) (resp : Except DbError Unit) :
    DataState × Except DbError Unit :=
  match resp with
  | Except.error e => (st, Except.error e)
  | Except.ok _ =>
    let updatedExercises := st.exercises.filter (fun ex => ex.id != exerciseId)
    ({ st with exercises := updatedExercises, cache := some updatedExercises },
     Except.ok ())

/-- JS truthiness coercion `weight ? parseFloat(weight) : null` applied to an
already numeric (or absent) weight: `0` is falsy, so a zero weight is stored
as `null`. -/
def coerceWeight : Option ℚ → Option ℚ
  | none => none
  | some w => if w = 0 then none else some w

/-- JS `exercise?.name || 'Unknown'`: absent exercise or empty name falls back
to `"Unknown"`. -/
def jsNameOrUnknown : Option Exercise → String
  | none => "Unknown"
  | some ex => if ex.name = "" then "Unknown" else ex.name

/-- `addSet`: ensures today's workout exists (creating it remotely when
absent — on success the new workout is stored in state *before* the set is
inserted), builds the set row with `order_index = todaySets.length`, inserts
it remotely, and on success appends the name-annotated copy to `todaySets`.
Remote responses are the generated row ids; failures are rethrown.  `reps`
arrives as the integer produced by the caller's `parseInt`; the placeholder
`id := 0` of `setData` models the id-less insert payload, replaced by the
store-generated id on return. -/
def addSet (st : DataState) (exerciseId : Nat) (reps : Int) (weight : Option ℚ)
    (today : String)
    (createWorkoutResp : Except DbError Nat)
    (createSetResp : Except DbError Nat) :
    DataState × Except DbError SetRow :=
  let afterWorkout : Except DbError (DataState × Workout) :=
    match st.todayWorkout with
    | some w => Except.ok (st, w)
    | none =>
      match createWorkoutResp with
      | Except.error e => Except.error e
      | Except.ok wid =>
        let w : Workout := { id := wid, date := today }
        Except.ok ({ st with todayWorkout := some w }, w)
  match afterWorkout with
  | Except.error e => (st, Except.error e)
  | Except.ok (st1, w) =>
    let setData : SetRow :=
      { id := 0, workout_id := w.id, exercise_id := exerciseId,
        reps := reps, weight := coerceWeight weight,
        order_index := st1.todaySets.length }
    match createSetResp with
    | Except.error e => (st1, Except.error e)
    | Except.ok sid =>
      let newSet : SetRow := { setData with id := sid }
      let name := jsNameOrUnknown (st1.exercises.find? (fun ex => ex.id == exerciseId))
      ({ st1 with todaySets := st1.todaySets ++ [{ row := newSet, exerciseName := name }] },
       Except.ok newSet)

/-- `deleteSet`: deletes remotely, then filters the id out of `todaySets`.
On remote failure the error is rethrown and nothing is written. -/
def deleteSet (st : DataState) (setId : Nat) (resp : Except DbError Unit) :
    DataState × Except DbError Unit :=
  match resp with
  | Except.error e => (st, Except.error e)
  | Except.ok _ =>
    ({ st with todaySets := st.todaySets.filter (fun s => s.row.id != setId) },
     Except.ok ())

/-- `syncData`: replaces `exercises` from the remote listing and rewrites the
cache, then runs `loadTodayWorkout` (which never throws).  The `catch` block
swallows every error, so only a failed exercise fetch is caught and the state
is left as it was; `syncing` is cleared in `finally`. -/
def syncData (st : DataState)
    (getExercisesResp : Except DbError (List Exercise))
    (workoutResp : Except DbError (Option Workout))
    (setsResp : Except DbError (List SetWithName)) :
    DataState × Except DbError Unit :=
  let st0 := { st with syncing := true }
  match getExercisesResp with
  | Except.error _ => ({ st0 with syncing := false }, Except.ok ())
  | Except.ok exercisesData =>
    let st1 := { st0 with exercises := exercisesData, cache := some exercisesData }
    let st2 := (loadTodayWorkout st1 workoutResp setsResp).1
    ({ st2 with syncing := false }, Except.ok ())

/-- `loadData`: pre-populates `exercises` from the cache snapshot when one
exists, then syncs; `loading` is cleared in `finally` and all errors are
swallowed. -/
def loadData (st : DataState)
    (getExercisesResp : Except DbError (List Exercise))
    (workoutResp : Except DbError (Option Workout))
    (setsResp : Except DbError (List SetWithName)) :
    DataState × Except DbError Unit :=
  let st0 := { st with loading := true }
  let st1 :=
    match st0.cache with
    | some cachedExercises => { st0 with exercises := cachedExercises }
    | none => st0
  let st2 := (syncData st1 getExercisesResp workoutResp setsResp).1
  ({ st2 with loading := false }, Except.ok ())

/-- The record returned by `getTodayStats`. -/
structure TodayStats where
  totalSets : Nat
  exerciseCount : Nat
  totalReps : Int
deriving DecidableEq

/-- `getTodayStats`: pure derived computation over `todaySets`.  JS
`new Set(ids).size` is the number of distinct elements, modelled by
`List.dedup`; the reps sum is the JS `reduce` fold. -/
def getTodayStats (st : DataState) : TodayStats :=
  { totalSets := st.todaySets.length
    exerciseCount := (st.todaySets.map (fun s => s.row.exercise_id)).dedup.length
    totalReps := st.todaySets.foldl (fun sum s => sum + s.row.reps) 0 }

/-- A set as returned by the export query (`sets(*, exercise:exercises(name))`):
the fields `exportData` reads, plus `exercise_id` (present in `*`). -/
structure ExportSet where
  exercise_id : Nat
  reps : Int
  weight : Option ℚ
  exerciseName : String
deriving DecidableEq

/-- A workout as returned by the export query: its date and its flat list of
sets (all sets of the workout, in the order the store returns them). -/
structure ExportWorkout where
  date : String
  sets : List ExportSet
deriving DecidableEq

/-- JS template fragment for the Weight column, from the row template of
`exportData` — `set.weight || ''` renders every falsy weight (absent or zero)
as the empty string. -/
def renderWeight : Option ℚ → String
  | none => ""
  | some w => if w = 0 then "" else toString w

/-- The five comma-joined fields of one export row, from the row template of
`exportData`: date, exercise name, `index + 1` (the set's index in the
workout's flat `sets` array), reps, rendered weight. -/
def rowFields (date : String) (i : Nat) (s : ExportSet) : List String :=
  [date, s.exerciseName, toString (i + 1), toString s.reps, renderWeight s.weight]

/-- The rows contributed by one workout: one per set, numbered by the
`forEach` index over `workout.sets`. -/
def workoutRows (w : ExportWorkout) : List (List String) :=
  w.sets.enum.map (fun p => rowFields w.date p.1 p.2)

/-- All data rows of the export, in workout order. -/
def exportRowsFields (data : List ExportWorkout) : List (List String) :=
  data.flatMap workoutRows

/-- `exportData` of the provider: header row then one comma-joined line per
set, joined by newlines. -/
def exportData (data : List ExportWorkout) : String :=
  String.intercalate "\n"
    ("Date,Exercise,Set,Reps,Weight" :: (exportRowsFields data).map (String.intercalate ","))

/-- Modelled from the spec's words, for comparison with the code's numbering:
the 1-based position of the set at index `i` (with payload `s`) within its
exercise group for the workout, i.e. one more than the number of earlier sets
of the same exercise. -/
def setNumberWithinExerciseGroup (sets : List ExportSet) (i : Nat) (s : ExportSet) : Nat :=
  ((sets.take i).filter (fun t => t.exercise_id == s.exercise_id)).length + 1

/-- Replacing a zero weight by an absent one, pointwise on a set. -/
def zeroWeightToAbsent (s : ExportSet) : ExportSet :=
  { s with weight := coerceWeight s.weight }

/-- The longest leading decimal-digit prefix of a character list. -/
def digitsOf : List Char → List Char
  | [] => []
  | c :: cs => if c.isDigit then c :: digitsOf cs else []

/-- Numeric value of a list of decimal digits. -/
def digitsVal (ds : List Char) : Nat :=
  ds.foldl (fun n c => 10 * n + (c.toNat - 48)) 0

/-- JS `parseInt(s)` in radix 10: skip leading spaces, an optional sign, then
the longest digit prefix; no digits means `NaN`, modelled as `none`. -/
def parseIntJs (s : String) : Option Int :=
  let cs := s.toList.dropWhile (fun c => c = ' ')
  match cs with
  | '-' :: rest =>
      if digitsOf rest = [] then none else some (-(digitsVal (digitsOf rest) : Int))
  | '+' :: rest =>
      if digitsOf rest = [] then none else some (digitsVal (digitsOf rest))
  | _ =>
      if digitsOf cs = [] then none else some (digitsVal (digitsOf cs))

/-- JS `parseFloat(s)` restricted to plain decimal notation: skip leading
spaces, an optional sign, digits, an optional point and fraction digits; no
digits at all means `NaN`, modelled as `none`. -/
def parseFloatJs (s : String) : Option ℚ :=
  let core : List Char → Option ℚ := fun cs =>
    let intPart := digitsOf cs
    let rest := cs.drop intPart.length
    match rest with
    | '.' :: rest2 =>
      let fracPart := digitsOf rest2
      if intPart = [] ∧ fracPart = [] then none
      else some ((digitsVal intPart : ℚ) + (digitsVal fracPart : ℚ) / ((10 : ℚ) ^ fracPart.length))
    | _ => if intPart = [] then none else some ((digitsVal intPart : ℚ))
  let cs := s.toList.dropWhile (fun c => c = ' ')
  match cs with
  | '-' :: rest => (core rest).map (fun q => -q)
  | '+' :: rest => core rest
  | _ => core cs

/-- The zod `setSchema` of `AddSetScreen`: `reps` is a required (non-empty)
string transformed with `parseInt` and refined to `(0, 999]`; `weight` is a
string where the empty string means absent, otherwise transformed with
`parseFloat` and refined to `[0, 9999]`.  Returns the transformed pair when
validation succeeds, `none` when it fails. -/
def setSchema (reps weight : String) : Option (Int × Option ℚ) :=
  if reps.length < 1 then none
  else
    match parseIntJs reps with
    | none => none
    | some r =>
      if 0 < r ∧ r ≤ 999 then
        if weight = "" then some (r, none)
        else
          match parseFloatJs weight with
          | none => none
          | some q => if 0 ≤ q ∧ q ≤ 9999 then some (r, some q) else none
      else none

/-! Concrete states and data used by the closed example theorems. -/

/-- A `todaySets` entry with the given ids and reps. -/
def mkSetEntry (id exId : Nat) (reps : Int) : SetWithName :=
  { row := { id := id, workout_id := 1, exercise_id := exId, reps := reps,
             weight := none, order_index := 0 },
    exerciseName := "E" }

/-- The empty provider state. -/
def stEmpty : DataState :=
  { exercises := [], todayWorkout := none, todaySets := [],
    loading := false, syncing := false, cache := none }

/-- A state with three sets of reps 5, 8, 10 over two distinct exercises. -/
def stThree : DataState :=
  { stEmpty with todaySets := [mkSetEntry 1 10 5, mkSetEntry 2 10 8, mkSetEntry 3 20 10] }

/-- A state with one set already logged. -/
def stOneSet : DataState :=
  { stEmpty with todaySets := [mkSetEntry 1 10 5] }

/-- A state where today's workout already exists. -/
def stWithWorkout : DataState :=
  { stEmpty with todayWorkout := some { id := 5, date := "2024-06-01" } }

/-- Export data: one workout holding one set of exercise 1 then one set of
exercise 2. -/
def wkTwoExercises : ExportWorkout :=
  { date := "2024-01-01",
    sets := [{ exercise_id := 1, reps := 5, weight := none, exerciseName := "Bench" },
             { exercise_id := 2, reps := 3, weight := none, exerciseName := "Squat" }] }

/-- A state with two name-sorted exercises. -/
def stTwoEx : DataState :=
  { stEmpty with exercises := [{ id := 1, name := "Bench" }, { id := 2, name := "Squat" }] }

/-! ## Helper lemmas -/

/-- The JS `reduce` fold of reps equals the sum of the mapped reps. -/
theorem foldl_reps_eq_sum (l : List SetWithName) :
    ∀ n : Int, l.foldl (fun sum s => sum + s.row.reps) n = n + (l.map (fun s => s.row.reps)).sum := by
  induction l with
  | nil => intro n; simp
  | cons s l ih => intro n; simp [ih, add_assoc]

/-- `loadTodayWorkout` writes only `todayWorkout` and `todaySets`. -/
theorem loadTodayWorkout_frame (st : DataState)
    (workoutResp : Except DbError (Option Workout))
    (setsResp : Except DbError (List SetWithName)) :
    (loadTodayWorkout st workoutResp setsResp).1.exercises = st.exercises ∧
    (loadTodayWorkout st workoutResp setsResp).1.cache = st.cache := by
  cases workoutResp with
  | error e => exact ⟨rfl, rfl⟩
  | ok o =>
    cases o with
    | none => exact ⟨rfl, rfl⟩
    | some w => cases setsResp <;> exact ⟨rfl, rfl⟩

/-! ## Claim theorems -/

/-- Claim C6: `getTodayStats` returns exactly the length of `todaySets`, the
number of distinct `exercise_id` values among them, and the sum of their reps;
on the empty list it returns zeros, and on three sets with reps 5, 8, 10 over
two distinct exercises it returns `{3, 2, 23}`.  It is pure by construction:
it takes the state and returns only the stats record. -/
theorem getTodayStats_spec :
    (∀ st : DataState,
      getTodayStats st =
        { totalSets := st.todaySets.length,
          exerciseCount := (st.todaySets.map (fun s => s.row.exercise_id)).toFinset.card,
          totalReps := (st.todaySets.map (fun s => s.row.reps)).sum }) ∧
    getTodayStats stEmpty = { totalSets := 0, exerciseCount := 0, totalReps := 0 } ∧
    getTodayStats stThree = { totalSets := 3, exerciseCount := 2, totalReps := 23 } := by
  refine ⟨fun st => ?_, by decide, by decide⟩
  simp [getTodayStats, List.card_toFinset, foldl_reps_eq_sum]

/-- Claim C7: running `loadTodayWorkout` a second time, with the remote store
returning the same responses and no intervening mutation, leaves the state
exactly as after the first run. -/
theorem loadTodayWorkout_idempotent (st : DataState)
    (workoutResp : Except DbError (Option Workout))
    (setsResp : Except DbError (List SetWithName)) :
    (loadTodayWorkout (loadTodayWorkout st workoutResp setsResp).1 workoutResp setsResp).1
      = (loadTodayWorkout st workoutResp setsResp).1 := by
  cases workoutResp with
  | error e => rfl
  | ok o =>
    cases o with
    | none => rfl
    | some w => cases setsResp <;> rfl

/-- Claim C9: a successful `deleteExercise id` keeps exactly the exercises
whose id differs from `id`, in their original order (a sublist), and leaves
`todayWorkout` and `todaySets` — including entries referencing the deleted
exercise — completely unchanged. -/
theorem deleteExercise_frame (st : DataState) (exerciseId : Nat) :
    (∀ ex : Exercise,
      ex ∈ (deleteExercise st exerciseId (Except.ok ())).1.exercises ↔
        ex ∈ st.exercises ∧ ex.id ≠ exerciseId) ∧
    (deleteExercise st exerciseId (Except.ok ())).1.exercises.Sublist st.exercises ∧
    (deleteExercise st exerciseId (Except.ok ())).1.todayWorkout = st.todayWorkout ∧
    (deleteExercise st exerciseId (Except.ok ())).1.todaySets = st.todaySets ∧
    (deleteExercise st exerciseId (Except.ok ())).2 = Except.ok () := by
  refine ⟨fun ex => ?_, ?_, rfl, rfl, rfl⟩
  · simp [deleteExercise, List.mem_filter]
  · exact List.filter_sublist _

/-- Claim C9 witness: deleting exercise 2 from the two-exercise state keeps
the Bench entry. -/
theorem deleteExercise_frame_witness :
    ({ id := 1, name := "Bench" } : Exercise)
        ∈ (deleteExercise stTwoEx 2 (Except.ok ())).1.exercises ↔
      ({ id := 1, name := "Bench" } : Exercise) ∈ stTwoEx.exercises ∧
        ({ id := 1, name := "Bench" } : Exercise).id ≠ 2 :=
  (deleteExercise_frame stTwoEx 2).1 { id := 1, name := "Bench" }

/-- Claim C2 counterexample: a non-not-found fetch error (code `"50001"`,
rejected by `database.getTodaysWorkout`) does not reject `loadTodayWorkout`:
the operation resolves with `ok` — its `catch` only logs — while clearing
`todaySets`; so the error does not propagate to the caller. -/
theorem loadTodayWorkout_swallows_fetch_error :
    getTodaysWorkout { data := none, error := some { code := "50001" } }
      = Except.error { code := "50001" } ∧
    loadTodayWorkout stOneSet (Except.error { code := "50001" }) (Except.ok [])
      = ({ stOneSet with todaySets := [] }, Except.ok ()) := by
  exact ⟨by simp [getTodaysWorkout], rfl⟩

/-- Claim C2 (amended): a row-not-found result (`PGRST116`) is treated as a
valid absent result — `todayWorkout := none`, `todaySets := []` — and any
other fetch error clears `todaySets` to empty, but is swallowed inside
`loadTodayWorkout` (logged only): the operation always resolves with `ok`
rather than rejecting. -/
theorem loadTodayWorkout_error_semantics :
    (∀ (st : DataState) (setsResp : Except DbError (List SetWithName)),
      loadTodayWorkout st
          (getTodaysWorkout { data := none, error := some { code := "PGRST116" } }) setsResp
        = ({ st with todayWorkout := none, todaySets := [] }, Except.ok ())) ∧
    (∀ (st : DataState) (e : DbError) (setsResp : Except DbError (List SetWithName)),
      e.code ≠ "PGRST116" →
        loadTodayWorkout st (getTodaysWorkout { data := none, error := some e }) setsResp
          = ({ st with todaySets := [] }, Except.ok ())) ∧
    (∀ (st : DataState) (w : Workout) (e : DbError),
      loadTodayWorkout st (Except.ok (some w)) (Except.error e)
        = ({ st with todayWorkout := some w, todaySets := [] }, Except.ok ())) := by
  refine ⟨fun st setsResp => rfl, fun st e setsResp he => ?_, fun st w e => rfl⟩
  simp only [getTodaysWorkout, if_neg he]
  rfl

/-- Claim C2 (amended) witness: concrete non-not-found error code `"50002"`. -/
theorem loadTodayWorkout_error_semantics_witness :
    loadTodayWorkout stEmpty (getTodaysWorkout { data := none, error := some { code := "50002" } })
        (Except.ok [])
      = ({ stEmpty with todaySets := [] }, Except.ok ()) :=
  loadTodayWorkout_error_semantics.2.1 stEmpty { code := "50002" } (Except.ok []) (by decide)

/-- Claim C3 counterexample: starting from a state with no workout for today,
`addSet` whose `createWorkout` call succeeds (id 7) but whose `createSet`
call fails rejects the operation — yet `todayWorkout` has changed from `none`
to the newly created workout, so the in-memory state is not left unchanged. -/
theorem addSet_partial_failure_mutates_state :
    (addSet stEmpty 1 5 none "2024-06-01" (Except.ok 7) (Except.error { code := "23505" })).2
      = Except.error { code := "23505" } ∧
    (addSet stEmpty 1 5 none "2024-06-01" (Except.ok 7)
        (Except.error { code := "23505" })).1.todayWorkout
      = some { id := 7, date := "2024-06-01" } ∧
    stEmpty.todayWorkout = none :=
  ⟨rfl, rfl, rfl⟩

/-- Claim C3 (amended): a failed remote call rejects the operation and leaves
the state unchanged for `createExercise`, `deleteExercise`, `deleteSet`, and
for `addSet` when the failure happens before any state write (`createSet`
failing with today's workout already present, or `createWorkout` failing);
but when `addSet` first creates today's workout successfully and the
subsequent `createSet` fails, the rejected operation leaves `todayWorkout`
updated to the newly created workout. -/
theorem mutation_failure_semantics (e : DbError) :
    (∀ st : DataState, createExercise st (Except.error e) = (st, Except.error e)) ∧
    (∀ (st : DataState) (exerciseId : Nat),
      deleteExercise st exerciseId (Except.error e) = (st, Except.error e)) ∧
    (∀ (st : DataState) (setId : Nat),
      deleteSet st setId (Except.error e) = (st, Except.error e)) ∧
    (∀ (st : DataState) (w : Workout) (exerciseId : Nat) (reps : Int) (weight : Option ℚ)
        (today : String) (cw : Except DbError Nat),
      addSet { st with todayWorkout := some w } exerciseId reps weight today cw (Except.error e)
        = ({ st with todayWorkout := some w }, Except.error e)) ∧
    (∀ (st : DataState) (exerciseId : Nat) (reps : Int) (weight : Option ℚ)
        (today : String) (cs : Except DbError Nat),
      addSet { st with todayWorkout := none } exerciseId reps weight today (Except.error e) cs
        = ({ st with todayWorkout := none }, Except.error e)) ∧
    (∀ (st : DataState) (exerciseId : Nat) (reps : Int) (weight : Option ℚ)
        (today : String) (wid : Nat),
      addSet { st with todayWorkout := none } exerciseId reps weight today (Except.ok wid)
          (Except.error e)
        = ({ st with todayWorkout := some { id := wid, date := today } }, Except.error e)) :=
  ⟨fun _ => rfl, fun _ _ => rfl, fun _ _ => rfl, fun _ _ _ _ _ _ _ => rfl,
   fun _ _ _ _ _ _ => rfl, fun _ _ _ _ _ _ => rfl⟩

/-- Claim C4 counterexample: with today's workout present, `addSet` called
with `reps = 0` — which does not coerce to a positive integer — does not fail
synchronously: it proceeds to the remote `createSet` call, which here
succeeds and stores a row with `reps = 0`. -/
theorem addSet_skips_validation :
    (addSet stWithWorkout 1 0 none "2024-06-01" (Except.error { code := "unused" })
        (Except.ok 9)).2
      = Except.ok { id := 9, workout_id := 5, exercise_id := 1, reps := 0,
                    weight := none, order_index := 0 } ∧
    ¬ (0 < (0 : Int)) :=
  ⟨rfl, by decide⟩

/-- Claim C4 (amended): the reps/weight validation happens in the UI form
layer — `AddSetScreen`'s zod `setSchema`, which admits exactly reps strings
parsing into `[1, 999]` and weight either empty or parsing into `[0, 9999]` —
before `addSet` is invoked; `addSet` itself performs no validation and
forwards whatever integer reps it receives to the remote store. -/
theorem set_validation_in_screen_schema :
    (∀ (repsS weightS : String) (r : Int) (w : Option ℚ),
      setSchema repsS weightS = some (r, w) →
        (1 ≤ r ∧ r ≤ 999) ∧ (w = none ∨ ∃ q, w = some q ∧ 0 ≤ q ∧ q ≤ 9999)) ∧
    (∀ (st : DataState) (w : Workout) (exerciseId : Nat) (reps : Int) (weight : Option ℚ)
        (today : String) (cw : Except DbError Nat) (sid : Nat),
      (addSet { st with todayWorkout := some w } exerciseId reps weight today cw
          (Except.ok sid)).2
        = Except.ok { id := sid, workout_id := w.id, exercise_id := exerciseId, reps := reps,
                      weight := coerceWeight weight, order_index := st.todaySets.length }) := by
  refine ⟨?_, fun st w exerciseId reps weight today cw sid => rfl⟩
  intro repsS weightS r w h
  by_cases h1 : repsS.length < 1
  · simp [setSchema, h1] at h
  · simp only [setSchema, if_neg h1] at h
    cases hp : parseIntJs repsS with
    | none => simp [hp] at h
    | some r0 =>
      simp only [hp] at h
      by_cases h2 : 0 < r0 ∧ r0 ≤ 999
      · simp only [if_pos h2] at h
        by_cases h3 : weightS = ""
        · simp only [if_pos h3, Option.some.injEq, Prod.mk.injEq] at h
          obtain ⟨hr, hw⟩ := h
          subst hr
          refine ⟨⟨by omega, h2.2⟩, Or.inl hw.symm⟩
        · simp only [if_neg h3] at h
          cases hq : parseFloatJs weightS with
          | none => simp [hq] at h
          | some q =>
            simp only [hq] at h
            by_cases h4 : 0 ≤ q ∧ q ≤ 9999
            · simp only [if_pos h4, Option.some.injEq, Prod.mk.injEq] at h
              obtain ⟨hr, hw⟩ := h
              subst hr
              exact ⟨⟨by omega, h2.2⟩, Or.inr ⟨q, hw.symm, h4.1, h4.2⟩⟩
            · simp [if_neg h4] at h
      · simp [if_neg h2] at h

/-- Claim C4 (amended) witness: `setSchema` accepts reps `"12"` with an empty
weight, yielding values in the admitted ranges. -/
theorem set_validation_in_screen_schema_witness :
    (1 ≤ (12 : Int) ∧ (12 : Int) ≤ 999) ∧
      ((none : Option ℚ) = none ∨ ∃ q, (none : Option ℚ) = some q ∧ 0 ≤ q ∧ q ≤ 9999) :=
  set_validation_in_screen_schema.1 "12" "" 12 none rfl

/-- Claim C5: for every state with `todaySets` of length `n` and valid inputs
(`reps` in `[1, 999]`, `weight` in `[0, 9999]` or absent), a successful
`addSet` — whether today's workout already exists or is first created —
appends exactly one entry to `todaySets` (prior entries unchanged, new length
`n + 1`) and both the stored entry and the returned row carry
`order_index = n`. -/
theorem addSet_appends_one (st : DataState) (exerciseId : Nat) (reps : Int)
    (weight : Option ℚ) (today : String) (sid wid : Nat) (w : Workout)
    (cw : Except DbError Nat)
    (_hreps : 1 ≤ reps ∧ reps ≤ 999)
    (_hweight : weight = none ∨ ∃ q, weight = some q ∧ 0 ≤ q ∧ q ≤ 9999) :
    (∃ entry : SetWithName,
      (addSet { st with todayWorkout := some w } exerciseId reps weight today cw
          (Except.ok sid)).1.todaySets = st.todaySets ++ [entry] ∧
      entry.row.order_index = st.todaySets.length ∧
      (addSet { st with todayWorkout := some w } exerciseId reps weight today cw
          (Except.ok sid)).2 = Except.ok entry.row ∧
      (addSet { st with todayWorkout := some w } exerciseId reps weight today cw
          (Except.ok sid)).1.todaySets.length = st.todaySets.length + 1) ∧
    (∃ entry : SetWithName,
      (addSet { st with todayWorkout := none } exerciseId reps weight today (Except.ok wid)
          (Except.ok sid)).1.todaySets = st.todaySets ++ [entry] ∧
      entry.row.order_index = st.todaySets.length ∧
      (addSet { st with todayWorkout := none } exerciseId reps weight today (Except.ok wid)
          (Except.ok sid)).2 = Except.ok entry.row ∧
      (addSet { st with todayWorkout := none } exerciseId reps weight today (Except.ok wid)
          (Except.ok sid)).1.todaySets.length = st.todaySets.length + 1) := by
  constructor
  · refine ⟨{ row := { id := sid, workout_id := w.id, exercise_id := exerciseId,
                       reps := reps, weight := coerceWeight weight,
                       order_index := st.todaySets.length },
              exerciseName :=
                jsNameOrUnknown (st.exercises.find? (fun ex => ex.id == exerciseId)) },
            rfl, rfl, rfl, by simp [addSet]⟩
  · refine ⟨{ row := { id := sid, workout_id := wid, exercise_id := exerciseId,
                       reps := reps, weight := coerceWeight weight,
                       order_index := st.todaySets.length },
              exerciseName :=
                jsNameOrUnknown (st.exercises.find? (fun ex => ex.id == exerciseId)) },
            rfl, rfl, rfl, by simp [addSet]⟩

/-- Claim C5 witness: one set already logged, valid reps 5 and absent weight,
workout already present with id 5. -/
theorem addSet_appends_one_witness :
    (∃ entry : SetWithName,
      (addSet { stOneSet with todayWorkout := some { id := 5, date := "2024-06-01" } } 1 5 none
          "2024-06-01" (Except.error { code := "unused" })
          (Except.ok 9)).1.todaySets = stOneSet.todaySets ++ [entry] ∧
      entry.row.order_index = stOneSet.todaySets.length ∧
      (addSet { stOneSet with todayWorkout := some { id := 5, date := "2024-06-01" } } 1 5 none
          "2024-06-01" (Except.error { code := "unused" })
          (Except.ok 9)).2 = Except.ok entry.row ∧
      (addSet { stOneSet with todayWorkout := some { id := 5, date := "2024-06-01" } } 1 5 none
          "2024-06-01" (Except.error { code := "unused" })
          (Except.ok 9)).1.todaySets.length = stOneSet.todaySets.length + 1) :=
  (addSet_appends_one stOneSet 1 5 none "2024-06-01" 9 7 { id := 5, date := "2024-06-01" }
    (Except.error { code := "unused" }) (by decide) (Or.inl rfl)).1

/-- The Weight column renders the same after the falsy-zero coercion. -/
theorem renderWeight_coerce (w : Option ℚ) : renderWeight (coerceWeight w) = renderWeight w := by
  cases w with
  | none => rfl
  | some q =>
    by_cases h : q = 0
    · simp [coerceWeight, renderWeight, h]
    · simp [coerceWeight, renderWeight, h]

/-- Mapping zero weights to absent ones does not change a workout's rows. -/
theorem workoutRows_zeroWeight (date : String) :
    ∀ (n : Nat) (l : List ExportSet),
      ((l.map zeroWeightToAbsent).enumFrom n).map (fun p => rowFields date p.1 p.2)
        = (l.enumFrom n).map (fun p => rowFields date p.1 p.2)
  | _, [] => rfl
  | n, s :: l => by
    show rowFields date n (zeroWeightToAbsent s)
          :: ((l.map zeroWeightToAbsent).enumFrom (n + 1)).map (fun p => rowFields date p.1 p.2)
        = rowFields date n s :: (l.enumFrom (n + 1)).map (fun p => rowFields date p.1 p.2)
    rw [workoutRows_zeroWeight date (n + 1) l]
    congr 1
    simp [rowFields, zeroWeightToAbsent, renderWeight_coerce]

/-- Claim C10: in the `exportData` output the Weight field of a set whose
weight is present but zero renders as the empty string, exactly as if the
weight were absent — replacing every zero weight by an absent one in the
input leaves the whole export unchanged, and both falsy weights render
empty. -/
theorem exportData_zero_weight_empty :
    (∀ data : List ExportWorkout,
      exportData (data.map (fun w => { w with sets := w.sets.map zeroWeightToAbsent }))
        = exportData data) ∧
    renderWeight (some 0) = "" ∧
    renderWeight none = "" := by
  refine ⟨fun data => ?_, by simp [renderWeight], rfl⟩
  unfold exportData
  congr 1
  congr 1
  congr 1
  induction data with
  | nil => rfl
  | cons w data ih =>
    show workoutRows { w with sets := w.sets.map zeroWeightToAbsent }
        ++ exportRowsFields (data.map _) = workoutRows w ++ exportRowsFields data
    rw [ih]
    congr 1
    exact workoutRows_zeroWeight w.date 0 w.sets

/-- The Set column of one workout's rows lists the successive global
positions, starting at `n + 1` for the row of index `n`. -/
theorem enumFrom_set_column (date : String) :
    ∀ (n : Nat) (l : List ExportSet),
      ((l.enumFrom n).map (fun p => rowFields date p.1 p.2)).map (fun r => r.get? 2)
        = (List.range' n l.length).map (fun i => some (toString (i + 1)))
  | _, [] => rfl
  | n, s :: l => by
    simp only [List.enumFrom, List.map_cons, List.length_cons, List.range',
      enumFrom_set_column date (n + 1) l, List.cons.injEq, and_true]
    rfl

/-- Claim C1 counterexample: a workout with one Bench set then one Squat set.
The Squat row (the second row) carries Set field `"2"` — its global position
in the workout — although its 1-based position within the Squat exercise
group is 1, so the Set field is not the within-group position. -/
theorem exportData_set_field_not_group_position :
    exportData [wkTwoExercises]
      = "Date,Exercise,Set,Reps,Weight\n2024-01-01,Bench,1,5,\n2024-01-01,Squat,2,3," ∧
    (exportRowsFields [wkTwoExercises]).get? 1
      = some ["2024-01-01", "Squat", "2", "3", ""] ∧
    setNumberWithinExerciseGroup wkTwoExercises.sets 1
      { exercise_id := 2, reps := 3, weight := none, exerciseName := "Squat" } = 1 ∧
    toString (1 : Nat) ≠ "2" :=
  ⟨rfl, rfl, rfl, by decide⟩

/-- Claim C1 (amended): in the `exportData` output, each row's Set field is
the 1-based *global* position of the set within that workout's flat `sets`
array (the `forEach` index plus one), for every workout of the export. -/
theorem exportData_set_field_global_position (data : List ExportWorkout) :
    (exportRowsFields data).map (fun r => r.get? 2)
      = data.flatMap (fun w =>
          (List.range w.sets.length).map (fun i => some (toString (i + 1)))) := by
  induction data with
  | nil => rfl
  | cons w data ih =>
    show ((workoutRows w ++ exportRowsFields data).map fun r => r.get? 2) = _
    rw [List.map_append, ih]
    show _ = ((List.range w.sets.length).map fun i => some (toString (i + 1))) ++ _
    congr 1
    rw [List.range_eq_range']
    exact enumFrom_set_column w.date 0 w.sets

/-- The concrete two-exercise list is name-sorted. -/
theorem sorted_stTwoEx : List.Sorted nameLe stTwoEx.exercises := by
  simp only [stTwoEx, stEmpty, List.sorted_cons, List.mem_singleton, List.sorted_singleton]
  refine ⟨fun b hb => ?_, by simp⟩
  subst hb
  show nameLe _ _
  unfold nameLe
  rw [String.le_iff_toList_le]
  decide

/-- After a successful exercise fetch, `syncData` stores exactly the fetched
list in memory and in the cache (today's-workout loading touches neither). -/
theorem syncData_ok_frame (st : DataState) (exs : List Exercise)
    (wr : Except DbError (Option Workout)) (sr : Except DbError (List SetWithName)) :
    (syncData st (Except.ok exs) wr sr).1.exercises = exs ∧
    (syncData st (Except.ok exs) wr sr).1.cache = some exs :=
  loadTodayWorkout_frame ⟨exs, st.todayWorkout, st.todaySets, st.loading, true, some exs⟩ wr sr

/-- Claim C8: assuming the remote listing (for `syncData`) and the cached
snapshot (for `loadData`'s pre-population) are name-sorted, every operation
writing `exercises` leaves it name-sorted; and a successful `createExercise`
stores exactly the prior list plus the created exercise (a permutation of
`prior ++ [new]`, sorted by name), persists that same list to the cache, and
returns the created exercise. -/
theorem exercises_sorted_invariant :
    (∀ (st : DataState) (exs : List Exercise) (wr : Except DbError (Option Workout))
        (sr : Except DbError (List SetWithName)),
      List.Sorted nameLe exs →
        List.Sorted nameLe (syncData st (Except.ok exs) wr sr).1.exercises ∧
        (syncData st (Except.ok exs) wr sr).1.cache = some exs) ∧
    (∀ (st : DataState) (cexs : List Exercise) (e : DbError)
        (wr : Except DbError (Option Workout)) (sr : Except DbError (List SetWithName)),
      List.Sorted nameLe cexs →
        List.Sorted nameLe
          (loadData { st with cache := some cexs } (Except.error e) wr sr).1.exercises) ∧
    (∀ (st : DataState) (newExercise : Exercise),
      List.Sorted nameLe st.exercises →
        List.Sorted nameLe (createExercise st (Except.ok newExercise)).1.exercises ∧
        (createExercise st (Except.ok newExercise)).1.exercises.Perm
          (st.exercises ++ [newExercise]) ∧
        (createExercise st (Except.ok newExercise)).1.cache
          = some (createExercise st (Except.ok newExercise)).1.exercises ∧
        (createExercise st (Except.ok newExercise)).2 = Except.ok newExercise) ∧
    (∀ (st : DataState) (exerciseId : Nat),
      List.Sorted nameLe st.exercises →
        List.Sorted nameLe (deleteExercise st exerciseId (Except.ok ())).1.exercises) := by
  refine ⟨fun st exs wr sr hs => ?_, fun st cexs e wr sr hs => hs,
          fun st newExercise _ => ?_, fun st exerciseId hs => ?_⟩
  · have h := syncData_ok_frame st exs wr sr
    exact ⟨by rw [h.1]; exact hs, h.2⟩
  · exact ⟨List.sorted_insertionSort nameLe _, List.perm_insertionSort nameLe _, rfl, rfl⟩
  · exact List.Pairwise.sublist (List.filter_sublist _) hs

/-- Claim C8 witness: creating exercise Curl on the sorted two-exercise state
yields a sorted list, a permutation of the prior list plus Curl, the same
list cached, and Curl returned. -/
theorem exercises_sorted_invariant_witness :
    List.Sorted nameLe
        (createExercise stTwoEx (Except.ok { id := 3, name := "Curl" })).1.exercises ∧
      (createExercise stTwoEx (Except.ok { id := 3, name := "Curl" })).1.exercises.Perm
        (stTwoEx.exercises ++ [{ id := 3, name := "Curl" }]) ∧
      (createExercise stTwoEx (Except.ok { id := 3, name := "Curl" })).1.cache
        = some (createExercise stTwoEx (Except.ok { id := 3, name := "Curl" })).1.exercises ∧
      (createExercise stTwoEx (Except.ok { id := 3, name := "Curl" })).2
        = Except.ok { id := 3, name := "Curl" } :=
  exercises_sorted_invariant.2.2.1 stTwoEx { id := 3, name := "Curl" } sorted_stTwoEx

end IronTrack
